import Mathlib

/-!
Verification of the Zonneplan-battery → Onbalansmarkt integration.

This file gives a shallow embedding of the measurement scheduling and
delivery core of the repository:

* `src/drivers/zonneplan-battery/device.ts` — scheduling, zero-result
  filtering, offset handling, profile polling, manual send, settings
  simulation trigger;
* `src/lib/onbalansmarkt-client.ts` — measurement validation, wire-payload
  construction and HTTP error reporting.

Wall-clock instants are modelled as natural numbers of milliseconds on the
local timeline (the source reads `Date#getMinutes` and writes minutes with
`Date#setMinutes`, which act on local time; the embedding works directly in
local milliseconds, so an hour is 3600000 and a minute 60000).  Currency and
energy amounts, which are IEEE doubles in the source, are modelled as
rationals: every operation the verified code performs on them (addition,
comparison with zero) is exact in the ranges of interest.
-/

/-! ## Time primitives (JavaScript `Date` operations used by the device) -/

/-- Model of `Date#getMinutes` on a local-milliseconds instant: the minute
within the hour, `0..59`. -/
def jsGetMinutes (t : ℕ) : ℕ := t / 60000 % 60

/-- Model of `d.setMinutes(m, 0, 0)`: keep the date and hour of `t`, set the
minute to `m` (carrying into later hours when `m > 59`, as JavaScript does)
and zero the seconds and milliseconds. -/
def jsSetMinutesSecZero (t m : ℕ) : ℕ := t / 3600000 * 3600000 + m * 60000

/-- Model of the one-argument `d.setMinutes(m)`: as `jsSetMinutesSecZero` but
the seconds and milliseconds of `t` are preserved. -/
def jsSetMinutesKeepSec (t m : ℕ) : ℕ :=
  t / 3600000 * 3600000 + m * 60000 + t % 60000

/-! ## The next-send-minute loop

`device.ts` (both `calculateNextMeasurementTime`, lines 231-266, and
`updateCountdownDisplay`, lines 192-226) runs

```
nextMinute = startMinute;
while (nextMinute <= currentMinute) { nextMinute += intervalMinutes; }
```

The loop is embedded with explicit fuel so that it stays a structural
recursion; `currentMinute + 1` units of fuel are enough to reproduce the
source loop exactly whenever `intervalMinutes ≥ 1` (each pass increases
`nextMinute` by at least one, and the loop stops as soon as
`nextMinute > currentMinute`).  For `intervalMinutes = 0` the source loop
does not terminate, so no claim is stated there. -/

/-- Fuelled form of the `while (nextMinute <= currentMinute)` loop. -/
def nextMinuteLoopFuel : ℕ → ℕ → ℕ → ℕ → ℕ
  | 0, _, _, nextMinute => nextMinute
  | fuel + 1, intervalMinutes, currentMinute, nextMinute =>
    if nextMinute ≤ currentMinute then
      nextMinuteLoopFuel fuel intervalMinutes currentMinute (nextMinute + intervalMinutes)
    else nextMinute

/-- The source loop, started at `startMinute` with adequate fuel. -/
def nextMinuteLoop (intervalMinutes currentMinute startMinute : ℕ) : ℕ :=
  nextMinuteLoopFuel (currentMinute + 1) intervalMinutes currentMinute startMinute

/-- The `nextMinute` variable after the branch on
`currentMinute < startMinute`: the start minute itself when it is still ahead
in the current hour, otherwise the loop result. -/
def nextMinuteOf (now startMinute intervalMinutes : ℕ) : ℕ :=
  if jsGetMinutes now < startMinute then startMinute
  else nextMinuteLoop intervalMinutes (jsGetMinutes now) startMinute

/-- Absolute next-send instant computed by both `calculateNextMeasurementTime`
and `updateCountdownDisplay` in `device.ts` (the two functions contain the
same block line for line): pick the next boundary minute from `startMinute`
and the interval, place it in the current hour with seconds zeroed, and if
that candidate is not in the future add one more interval (the source's
`nextSendTime.setMinutes(nextSendTime.getMinutes() + intervalMinutes)`). -/
def nextSendTimeAbs (now startMinute intervalMinutes : ℕ) : ℕ :=
  if jsSetMinutesSecZero now (nextMinuteOf now startMinute intervalMinutes) ≤ now then
    jsSetMinutesKeepSec (jsSetMinutesSecZero now (nextMinuteOf now startMinute intervalMinutes))
      (jsGetMinutes (jsSetMinutesSecZero now (nextMinuteOf now startMinute intervalMinutes))
        + intervalMinutes)
  else jsSetMinutesSecZero now (nextMinuteOf now startMinute intervalMinutes)

/-- `calculateNextMeasurementTime` (`device.ts` lines 231-266): the returned
`timeToWait` in milliseconds, `nextSendTime.getTime() - now.getTime()`. -/
def calculateNextMeasurementTime (now startMinute intervalMinutes : ℕ) : ℤ :=
  (nextSendTimeAbs now startMinute intervalMinutes : ℤ) - (now : ℤ)

/-- `updateCountdownDisplay` (`device.ts` lines 192-226): the value written to
the `onbalansmarkt_next_livesend` capability,
`Math.max(0, Math.ceil(msRemaining / 60000))`.  For integer `a`,
`Math.ceil(a / 60000)` equals `(a + 59999) / 60000` with floor division,
which is what `/` on `ℤ` computes for a positive divisor. -/
def updateCountdownDisplay (now startMinute intervalMinutes : ℕ) : ℤ :=
  max 0 ((((nextSendTimeAbs now startMinute intervalMinutes : ℤ) - (now : ℤ)) + 59999) / 60000)

/-! ## Device data model (`device.ts`) -/

/-- Trading modes accepted by the remote API (`onbalansmarkt-client.ts`
lines 7-13). -/
inductive TradingMode where
  | imbalance
  | imbalance_aggressive
  | manual
  | day_ahead
  | self_consumption
  | self_consumption_plus
deriving DecidableEq

/-- `ZonneplanMetrics` (`device.ts` lines 4-13).  `timestamp` is an instant in
local milliseconds. -/
structure ZonneplanMetrics where
  dailyEarned : ℚ
  totalEarned : ℚ
  dailyCharged : ℚ
  dailyDischarged : ℚ
  batteryPercentage : ℚ
  cycleCount : ℚ
  loadBalancingActive : Bool
  timestamp : ℕ
deriving DecidableEq

/-- The device settings read by the verified paths, after the source's
defaulting (`getSetting(x) || default`) has been applied:
`onbalansmarkt_api_key` (whether a non-blank key is configured, i.e. whether
`onbalansmarktClient` is non-null), `report_zero_trading_results`,
`auto_send_measurements`, `total_earned_offset` and `trading_mode`. -/
structure DeviceSettings where
  clientConfigured : Bool
  reportZeroResults : Bool
  autoSend : Bool
  totalEarnedOffset : ℚ
  tradingMode : TradingMode
deriving DecidableEq

/-- `OnbalansmarktMeasurement` (`onbalansmarkt-client.ts` lines 42-59): the
argument of `sendMeasurement`.  Every field that is optional or nullable in
the source is an `Option`; `timestamp` is also an `Option` because the
validation in `sendMeasurement` re-checks it at runtime.
`loadBalancingActive` carries the literal `"on"` / `"off"` strings. -/
structure OnbalansmarktMeasurement where
  timestamp : Option ℕ
  batteryResult : Option ℚ
  batteryResultTotal : Option ℚ
  batteryCharge : Option ℚ := none
  batteryPower : Option ℚ := none
  chargedToday : Option ℚ := none
  dischargedToday : Option ℚ := none
  loadBalancingActive : Option String := none
  solarResult : Option ℚ := none
  chargerResult : Option ℚ := none
  batteryResultEpex : Option ℚ := none
  batteryResultImbalance : Option ℚ := none
  batteryResultCustom : Option ℚ := none
  batteryResultAccounting : Option ℚ := none
  totalBatteryCycles : Option ℚ := none
  mode : Option TradingMode := none
deriving DecidableEq

/-- Model of JavaScript `Math.round`, which is `⌊x + 1/2⌋`: for a rational
`q = num/den` this is the floor division of `2 num + den` by `2 den`. -/
def jsRound (q : ℚ) : ℤ := Int.fdiv (2 * q.num + q.den) (2 * q.den)

/-- The measurement object built by `sendToOnbalansmarkt` (`device.ts`
lines 493-503); `sendLiveMeasurement` (lines 548-558) builds the identical
object. -/
def buildOnbalansmarktMeasurement (s : DeviceSettings) (m : ZonneplanMetrics) :
    OnbalansmarktMeasurement :=
  { timestamp := some m.timestamp
    batteryResult := some m.dailyEarned
    batteryResultTotal := some (m.totalEarned + s.totalEarnedOffset)
    batteryCharge := some m.batteryPercentage
    chargedToday := if 0 < m.dailyCharged then some ((jsRound m.dailyCharged : ℤ) : ℚ) else none
    dischargedToday :=
      if 0 < m.dailyDischarged then some ((jsRound m.dailyDischarged : ℤ) : ℚ) else none
    totalBatteryCycles := if 0 < m.cycleCount then some m.cycleCount else none
    loadBalancingActive := some (if m.loadBalancingActive then "on" else "off")
    mode := some s.tradingMode }

/-- `sendToOnbalansmarkt` (`device.ts` lines 483-510): returns the measurement
handed to `onbalansmarktClient.sendMeasurement`, or `none` when no client is
configured (the source logs and returns).  Errors thrown by the client are
caught and logged inside this function, so it never raises. -/
def sendToOnbalansmarkt (s : DeviceSettings) (m : ZonneplanMetrics) :
    Option OnbalansmarktMeasurement :=
  if s.clientConfigured then some (buildOnbalansmarktMeasurement s m) else none

/-- `sendScheduledMeasurement` (`device.ts` lines 271-286): the delivery call
made by one firing of the send timer, given the `lastReceivedMetrics` slot.
`none` means no call to the remote client was made.  All paths return
normally; nothing is thrown. -/
def sendScheduledMeasurement (s : DeviceSettings)
    (lastReceivedMetrics : Option ZonneplanMetrics) : Option OnbalansmarktMeasurement :=
  match lastReceivedMetrics with
  | none => none
  | some m =>
    if m.dailyEarned = 0 ∧ s.reportZeroResults = false then none
    else sendToOnbalansmarkt s m

/-- The auto-send step of `handleReceivedMetrics` (`device.ts` lines 427-436):
the delivery call made immediately after ingesting `m`, or `none`. -/
def handleReceivedMetricsAutoSend (s : DeviceSettings) (m : ZonneplanMetrics) :
    Option OnbalansmarktMeasurement :=
  if s.autoSend = false then none
  else if m.dailyEarned = 0 ∧ s.reportZeroResults = false then none
  else sendToOnbalansmarkt s m

/-- The record written to the persistent store by `saveMetricsToStore`
(`device.ts` lines 705-720); the timestamp is stored as its ISO string, here
kept as the instant itself. -/
structure StoredMetrics where
  dailyEarned : ℚ
  totalEarned : ℚ
  dailyCharged : ℚ
  dailyDischarged : ℚ
  batteryPercentage : ℚ
  cycleCount : ℚ
  loadBalancingActive : Bool
  timestamp : ℕ
deriving DecidableEq

/-- `saveMetricsToStore` (`device.ts` lines 705-720): fields are copied from
the in-memory metrics verbatim; no offset or other adjustment is applied. -/
def saveMetricsToStore (m : ZonneplanMetrics) : StoredMetrics :=
  { dailyEarned := m.dailyEarned
    totalEarned := m.totalEarned
    dailyCharged := m.dailyCharged
    dailyDischarged := m.dailyDischarged
    batteryPercentage := m.batteryPercentage
    cycleCount := m.cycleCount
    loadBalancingActive := m.loadBalancingActive
    timestamp := m.timestamp }

/-- `sendLiveMeasurement` (`device.ts` lines 516-568): throws when no client
is configured, otherwise sends the same measurement object as
`sendToOnbalansmarkt` and propagates client errors (the delivery itself is
outside the embedding; the returned value is the measurement submitted). -/
def sendLiveMeasurement (s : DeviceSettings) (m : ZonneplanMetrics) :
    Except String OnbalansmarktMeasurement :=
  if s.clientConfigured then .ok (buildOnbalansmarktMeasurement s m)
  else .error "Onbalansmarkt API key not configured"

/-- The `send_live_measurement` flow-card handler (`device.ts` lines 398-409):
the manual "send last known measurement now" operation.  It takes no input
beyond the device state; with an empty metrics slot it throws. -/
def sendLiveMeasurementFlowCard (s : DeviceSettings)
    (lastReceivedMetrics : Option ZonneplanMetrics) : Except String OnbalansmarktMeasurement :=
  match lastReceivedMetrics with
  | none => .error "No metrics available. Please receive Zonneplan metrics first."
  | some m => sendLiveMeasurement s m

/-- `simulateLiveMeasurement` (`device.ts` lines 574-609): the body only
formats and writes log lines — it contains no call to
`onbalansmarktClient.sendMeasurement`.  The result is the outcome paired with
the list of client calls made, which is empty by construction of the source. -/
def simulateLiveMeasurement (_s : DeviceSettings) (_m : ZonneplanMetrics) :
    Except String Unit × List OnbalansmarktMeasurement :=
  (.ok (), [])

/-- Outcome of the `trigger_live_send` branch of `onSettings`. -/
structure TriggerLiveSendOutcome where
  triggerLiveSendSetting : Bool
  result : Except String Unit
  clientCalls : List OnbalansmarktMeasurement

/-- The `trigger_live_send` branch of `onSettings` (`device.ts`
lines 644-666): with no stored metrics the setting is switched off and an
error is thrown; otherwise `simulateLiveMeasurement` runs and the setting is
switched off both on success and (before rethrowing) on failure. -/
def onSettingsTriggerLiveSend (s : DeviceSettings)
    (lastReceivedMetrics : Option ZonneplanMetrics) : TriggerLiveSendOutcome :=
  match lastReceivedMetrics with
  | none =>
    { triggerLiveSendSetting := false
      result := .error "No metrics available for simulation - please receive metrics first"
      clientCalls := [] }
  | some m =>
    match simulateLiveMeasurement s m with
    | (.ok _, calls) =>
      { triggerLiveSendSetting := false, result := .ok (), clientCalls := calls }
    | (.error e, calls) =>
      { triggerLiveSendSetting := false, result := .error e, clientCalls := calls }

/-! ## Profile polling (`fetchAndUpdateProfile`, `device.ts` lines 291-323) -/

/-- The fields of a `DailyResult` (`onbalansmarkt-client.ts` lines 17-33) read
by `fetchAndUpdateProfile`.  Each is an `Option` because the remote JSON may
omit it (the source defends with `|| 0` and explicit null checks); fields the
function never reads are omitted from the embedding. -/
structure DailyResult where
  overallRank : Option ℕ
  providerRank : Option ℕ
  batteryCharged : Option ℚ
  batteryDischarged : Option ℚ
deriving DecidableEq

/-- The four capabilities `fetchAndUpdateProfile` publishes. -/
structure ProfileCapabilities where
  overallRank : ℕ
  providerRank : ℕ
  reportedCharged : ℚ
  reportedDischarged : ℚ
deriving DecidableEq

/-- `fetchAndUpdateProfile` (`device.ts` lines 291-323), given the previously
published capability values and the `resultToday` of a successfully fetched
profile: ranks are written on every fire (`overallRank || 0`, or `0` when
`resultToday` is absent); `zonneplan_reported_charged` and
`zonneplan_reported_discharged` are written only when the corresponding field
is neither null nor undefined. -/
def fetchAndUpdateProfile (caps : ProfileCapabilities) (resultToday : Option DailyResult) :
    ProfileCapabilities :=
  match resultToday with
  | some r =>
    { overallRank := r.overallRank.getD 0
      providerRank := r.providerRank.getD 0
      reportedCharged :=
        match r.batteryCharged with
        | some v => v
        | none => caps.reportedCharged
      reportedDischarged :=
        match r.batteryDischarged with
        | some v => v
        | none => caps.reportedDischarged }
  | none => { caps with overallRank := 0, providerRank := 0 }

/-! ## Remote client (`onbalansmarkt-client.ts`) -/

/-- Abstract model of `Number#toString` on the rationals standing in for
JavaScript numbers.  No verified claim depends on the digit format, only on
which fields appear on the wire. -/
def encodeNumber (q : ℚ) : String := toString q

/-- Abstract model of `Date#toISOString`. -/
def encodeTimestamp (t : ℕ) : String := toString t

/-- The strings `mode.toString()` produces for each trading mode. -/
def encodeTradingMode : TradingMode → String
  | .imbalance => "imbalance"
  | .imbalance_aggressive => "imbalance_aggressive"
  | .manual => "manual"
  | .day_ahead => "day_ahead"
  | .self_consumption => "self_consumption"
  | .self_consumption_plus => "self_consumption_plus"

/-- One optional entry of the wire payload: present exactly when the source
executes `payload.key = value.toString()`. -/
def optField (key : String) (v : Option String) : List (String × String) :=
  match v with
  | some s => [(key, s)]
  | none => []

/-- Validation and payload construction of `sendMeasurement`
(`onbalansmarkt-client.ts` lines 82-141): reject when `timestamp`,
`batteryResult` or `batteryResultTotal` is null or undefined; otherwise build
the string-valued field map with the three required entries followed by each
optional entry exactly when its field is present, in source order. -/
def sendMeasurementPayload (m : OnbalansmarktMeasurement) :
    Except String (List (String × String)) :=
  match m.timestamp, m.batteryResult, m.batteryResultTotal with
  | some ts, some br, some brt =>
    .ok ([("timestamp", encodeTimestamp ts),
          ("batteryResult", encodeNumber br),
          ("batteryResultTotal", encodeNumber brt)]
      ++ optField "batteryCharge" (m.batteryCharge.map encodeNumber)
      ++ optField "batteryPower" (m.batteryPower.map encodeNumber)
      ++ optField "chargedToday" (m.chargedToday.map encodeNumber)
      ++ optField "dischargedToday" (m.dischargedToday.map encodeNumber)
      ++ optField "loadBalancingActive" m.loadBalancingActive
      ++ optField "solarResult" (m.solarResult.map encodeNumber)
      ++ optField "chargerResult" (m.chargerResult.map encodeNumber)
      ++ optField "batteryResultEpex" (m.batteryResultEpex.map encodeNumber)
      ++ optField "batteryResultImbalance" (m.batteryResultImbalance.map encodeNumber)
      ++ optField "batteryResultCustom" (m.batteryResultCustom.map encodeNumber)
      ++ optField "batteryResultAccounting" (m.batteryResultAccounting.map encodeNumber)
      ++ optField "totalBatteryCycles" (m.totalBatteryCycles.map encodeNumber)
      ++ optField "mode" (m.mode.map encodeTradingMode))
  | _, _, _ => .error "timestamp, batteryResult and batteryResultTotal are required fields"

/-- Keys of the wire payload (empty on the validation-error path). -/
def payloadKeys (m : OnbalansmarktMeasurement) : List String :=
  match sendMeasurementPayload m with
  | .ok p => p.map Prod.fst
  | .error _ => []

/-- Model of JavaScript `String#includes`. -/
def jsStrIncludes (s pat : String) : Bool :=
  (List.range (s.toList.length + 1)).any fun i => pat.toList.isPrefixOf (s.toList.drop i)

/-- The `errorDetails` string built by `sendMeasurement` for a non-2xx
response (`onbalansmarkt-client.ts` lines 155-171): the HTTP status and
status text, extended with the JSON-decoded error body when the content type
is JSON and the body parses (`jsonError = some body`), or with the
invalid-key hint when the content type is HTML. -/
def buildHttpErrorDetails (status : ℕ) (statusText contentType : String)
    (jsonError : Option String) : String :=
  let base := "HTTP " ++ toString status ++ " " ++ statusText
  if jsStrIncludes contentType "application/json" then
    match jsonError with
    | some e => base ++ ": " ++ e
    | none => base
  else if jsStrIncludes contentType "text/html" then
    base ++ " (HTML response - API may be down or invalid API key)"
  else base

/-- The message of the error `sendMeasurement` ultimately raises for a
non-2xx response: the inner `Error` message `API returned {errorDetails}` is
caught at lines 177-181 and rewrapped as
`Failed to send measurement: {errorMessage}`. -/
def sendMeasurementErrorMessage (status : ℕ) (statusText contentType : String)
    (jsonError : Option String) : String :=
  "Failed to send measurement: " ++
    ("API returned " ++ buildHttpErrorDetails status statusText contentType jsonError)

/-- Response handling of `sendMeasurement` (`onbalansmarkt-client.ts`
lines 145-181): `response.ok` means an HTTP status in `200..299`; on success
the response text is returned, otherwise the wrapped error is raised. -/
def sendMeasurementResponse (status : ℕ) (statusText contentType : String)
    (jsonError : Option String) (responseText : String) : Except String String :=
  if 200 ≤ status ∧ status ≤ 299 then .ok responseText
  else .error (sendMeasurementErrorMessage status statusText contentType jsonError)

/-! ## Scheduling lemmas -/

/-- The `while (nextMinute <= currentMinute) nextMinute += intervalMinutes`
loop, with enough fuel and a positive interval, stops strictly past
`currentMinute`, having added a whole number of intervals. -/
theorem nextMinuteLoopFuel_spec (I : ℕ) (hI : 1 ≤ I) :
    ∀ fuel cur m, cur + 1 ≤ fuel + m →
      cur < nextMinuteLoopFuel fuel I cur m ∧
        ∃ k, nextMinuteLoopFuel fuel I cur m = m + k * I := by
  intro fuel
  induction fuel with
  | zero =>
    intro cur m h
    constructor
    · simp only [nextMinuteLoopFuel]
      omega
    · exact ⟨0, by simp [nextMinuteLoopFuel]⟩
  | succ f ih =>
    intro cur m h
    by_cases hm : m ≤ cur
    · obtain ⟨h1, k, hk⟩ := ih cur (m + I) (by omega)
      constructor
      · simpa only [nextMinuteLoopFuel, if_pos hm] using h1
      · refine ⟨k + 1, ?_⟩
        simp only [nextMinuteLoopFuel, if_pos hm]
        rw [hk]
        ring
    · constructor
      · simp only [nextMinuteLoopFuel, if_neg hm]
        omega
      · exact ⟨0, by simp only [nextMinuteLoopFuel, if_neg hm, Nat.zero_mul, Nat.add_zero]⟩

/-- The chosen `nextMinute` is strictly past the current minute and lies on
the `startMinute + k·interval` ladder. -/
theorem nextMinuteOf_spec (now s I : ℕ) (hI : 1 ≤ I) :
    jsGetMinutes now < nextMinuteOf now s I ∧ ∃ k, nextMinuteOf now s I = s + k * I := by
  unfold nextMinuteOf
  by_cases hbr : jsGetMinutes now < s
  · simp only [if_pos hbr]
    exact ⟨hbr, 0, by simp⟩
  · simp only [if_neg hbr]
    exact nextMinuteLoopFuel_spec I hI (jsGetMinutes now + 1) (jsGetMinutes now) s (by omega)

/-- An instant is strictly before the top of its own hour plus any minute
count strictly past its own minute-of-hour. -/
theorem now_lt_minuteSlot (now nm : ℕ) (h : jsGetMinutes now < nm) :
    now < now / 3600000 * 3600000 + nm * 60000 := by
  unfold jsGetMinutes at h
  omega

/-- The candidate produced from `nextMinuteOf` is strictly in the future, so
the source's final `if (nextSendTime <= now)` correction never fires and the
computed next-send instant is the candidate itself. -/
theorem nextSendTimeAbs_eq (now s I : ℕ) (hI : 1 ≤ I) :
    now < nextSendTimeAbs now s I ∧
      nextSendTimeAbs now s I = now / 3600000 * 3600000 + nextMinuteOf now s I * 60000 := by
  obtain ⟨hlt, _⟩ := nextMinuteOf_spec now s I hI
  have hfut : ¬ (jsSetMinutesSecZero now (nextMinuteOf now s I) ≤ now) := by
    have := now_lt_minuteSlot now (nextMinuteOf now s I) hlt
    unfold jsSetMinutesSecZero
    omega
  unfold nextSendTimeAbs
  rw [if_neg hfut]
  exact ⟨by have := now_lt_minuteSlot now (nextMinuteOf now s I) hlt
            unfold jsSetMinutesSecZero
            omega,
        rfl⟩

/-- The computed next-send instant is a whole minute (seconds and
milliseconds zero). -/
theorem nextSendTimeAbs_minuteMultiple (now s I : ℕ) (hI : 1 ≤ I) :
    nextSendTimeAbs now s I % 60000 = 0 := by
  obtain ⟨_, heq⟩ := nextSendTimeAbs_eq now s I hI
  rw [heq]
  omega

/-- C1.  For every wall-clock instant, every `startMinute` in `0..59` and
every positive `intervalMinutes`, the next-send time computed by
`calculateNextMeasurementTime` is strictly later than `now`, and, measured
from the top of the hour containing `startMinute` (the current hour), its
minute offset is `startMinute + k · intervalMinutes` for some `k` — in
particular congruent to `startMinute` modulo `intervalMinutes` — with
seconds zeroed. -/
theorem calculateNextMeasurementTime_strictly_future_and_aligned
    (now s I : ℕ) (_hs : s ≤ 59) (hI : 1 ≤ I) :
    0 < calculateNextMeasurementTime now s I ∧
      ∃ k, nextSendTimeAbs now s I = now / 3600000 * 3600000 + (s + k * I) * 60000 := by
  obtain ⟨hfut, heq⟩ := nextSendTimeAbs_eq now s I hI
  obtain ⟨_, k, hk⟩ := nextMinuteOf_spec now s I hI
  constructor
  · unfold calculateNextMeasurementTime
    omega
  · exact ⟨k, by rw [heq, hk]⟩

/-- Witness for C1 at the spec scenario `startMinute = 0`,
`intervalMinutes = 15`, `now = 10:07` (local milliseconds `36420000`). -/
theorem calculateNextMeasurementTime_strictly_future_and_aligned_witness :
    ((0 ≤ 59 ∧ 1 ≤ 15) ∧
      (0 < calculateNextMeasurementTime 36420000 0 15 ∧
        ∃ k, nextSendTimeAbs 36420000 0 15
          = 36420000 / 3600000 * 3600000 + (0 + k * 15) * 60000)) :=
  ⟨by decide,
   calculateNextMeasurementTime_strictly_future_and_aligned 36420000 0 15
     (by decide) (by decide)⟩

/-- C2.  The claim that recomputing the next-send time at the exact instant
of a scheduled send always yields a delay of exactly `intervalMinutes` —
including for intervals past 60 minutes — fails on the code: with
`startMinute = 0`, `intervalMinutes = 90` and an hour top at instant `0`, the
scheduler's first boundary is instant `5400000` (minute 90, i.e. minute 30 of
the following hour); recomputing there restarts the minute ladder from the
top of that later hour and returns a delay of `3600000` ms (60 minutes)
instead of the `5400000` ms (90 minutes) the claim requires. -/
theorem calculateNextMeasurementTime_hour_wrap_divergence :
    calculateNextMeasurementTime 0 0 90 = 5400000 ∧
      calculateNextMeasurementTime 5400000 0 90 = 3600000 ∧
      (3600000 : ℤ) ≠ 90 * 60000 := by
  refine ⟨by decide, by decide, by decide⟩

/-- Two instants in the same wall-clock second have the same minute of the
hour, the same hour top, and compare identically against any whole minute, so
the whole next-send computation agrees on them. -/
theorem nextSendTimeAbs_same_second (t1 t2 s I : ℕ) (hsec : t1 / 1000 = t2 / 1000) :
    nextSendTimeAbs t1 s I = nextSendTimeAbs t2 s I := by
  have hmin : jsGetMinutes t1 = jsGetMinutes t2 := by
    unfold jsGetMinutes
    omega
  have hhour : t1 / 3600000 = t2 / 3600000 := by omega
  have hnm : nextMinuteOf t1 s I = nextMinuteOf t2 s I := by
    unfold nextMinuteOf
    rw [hmin]
  have hcand : jsSetMinutesSecZero t1 (nextMinuteOf t1 s I)
      = jsSetMinutesSecZero t2 (nextMinuteOf t2 s I) := by
    unfold jsSetMinutesSecZero
    rw [hnm, hhour]
  have hcand_mod : jsSetMinutesSecZero t2 (nextMinuteOf t2 s I) % 1000 = 0 := by
    unfold jsSetMinutesSecZero
    omega
  have hcond : (jsSetMinutesSecZero t2 (nextMinuteOf t2 s I) ≤ t1)
      ↔ (jsSetMinutesSecZero t2 (nextMinuteOf t2 s I) ≤ t2) := by
    omega
  unfold nextSendTimeAbs
  rw [hcand]
  exact if_congr hcond rfl rfl

/-- C9.  The countdown computation is the remaining delay converted to whole
minutes rounded up (characterised by the two bracketing inequalities) and
floored at zero, and it is idempotent within a wall-clock second: any two
instants with the same seconds count give the same whole-minute value. -/
theorem updateCountdownDisplay_ceil_and_idempotent (t1 t2 s I : ℕ) (hI : 1 ≤ I)
    (hsec : t1 / 1000 = t2 / 1000) :
    updateCountdownDisplay t1 s I = updateCountdownDisplay t2 s I ∧
      0 ≤ updateCountdownDisplay t1 s I ∧
      60000 * (updateCountdownDisplay t1 s I - 1)
        < (nextSendTimeAbs t1 s I : ℤ) - (t1 : ℤ) ∧
      (nextSendTimeAbs t1 s I : ℤ) - (t1 : ℤ) ≤ 60000 * updateCountdownDisplay t1 s I := by
  have hN := nextSendTimeAbs_same_second t1 t2 s I hsec
  have hfut1 := (nextSendTimeAbs_eq t1 s I hI).1
  have hmod := nextSendTimeAbs_minuteMultiple t1 s I hI
  refine ⟨?_, ?_, ?_, ?_⟩
  · unfold updateCountdownDisplay
    rw [hN]
    have hmod2 := nextSendTimeAbs_minuteMultiple t2 s I hI
    have hdiv : ((nextSendTimeAbs t2 s I : ℤ) - (t1 : ℤ) + 59999) / 60000
        = ((nextSendTimeAbs t2 s I : ℤ) - (t2 : ℤ) + 59999) / 60000 := by
      omega
    rw [hdiv]
  · unfold updateCountdownDisplay
    omega
  · unfold updateCountdownDisplay
    omega
  · unfold updateCountdownDisplay
    omega

/-- Witness for C9 at `startMinute = 0`, `intervalMinutes = 15` and the two
instants `10:07:30.100` and `10:07:30.900` (same wall-clock second). -/
theorem updateCountdownDisplay_ceil_and_idempotent_witness :
    (1 ≤ 15 ∧ 36450100 / 1000 = 36450900 / 1000) ∧
      (updateCountdownDisplay 36450100 0 15 = updateCountdownDisplay 36450900 0 15 ∧
        0 ≤ updateCountdownDisplay 36450100 0 15 ∧
        60000 * (updateCountdownDisplay 36450100 0 15 - 1)
          < (nextSendTimeAbs 36450100 0 15 : ℤ) - (36450100 : ℤ) ∧
        (nextSendTimeAbs 36450100 0 15 : ℤ) - (36450100 : ℤ)
          ≤ 60000 * updateCountdownDisplay 36450100 0 15) :=
  ⟨by decide,
   updateCountdownDisplay_ceil_and_idempotent 36450100 36450900 0 15 (by decide) (by decide)⟩

/-! ## Delivery-path theorems -/

/-- C3.  With a credential configured, a scheduled-send firing with
`dailyEarned = 0` and `reportZeroResults = false` makes no delivery call,
while with `reportZeroResults = true` the delivery call occurs; the immediate
auto-send path after ingestion applies exactly the same filter (with
auto-send enabled it makes the very same call the scheduled path would). -/
theorem zero_result_filter_spec (s : DeviceSettings) (m : ZonneplanMetrics)
    (hc : s.clientConfigured = true) :
    (m.dailyEarned = 0 → s.reportZeroResults = false →
      sendScheduledMeasurement s (some m) = none ∧
        handleReceivedMetricsAutoSend s m = none) ∧
    (s.reportZeroResults = true →
      sendScheduledMeasurement s (some m)
          = some (buildOnbalansmarktMeasurement s m) ∧
        (s.autoSend = true →
          handleReceivedMetricsAutoSend s m = sendScheduledMeasurement s (some m))) := by
  constructor
  · intro hz hr
    constructor
    · simp [sendScheduledMeasurement, hz, hr]
    · simp [handleReceivedMetricsAutoSend, hz, hr]
  · intro hr
    constructor
    · simp [sendScheduledMeasurement, hr, sendToOnbalansmarkt, hc]
    · intro ha
      simp [handleReceivedMetricsAutoSend, sendScheduledMeasurement, ha, hr]

/-- Witness for C3: configured client, `reportZeroResults = false`,
auto-send on, a metric with `dailyEarned = 0`. -/
theorem zero_result_filter_spec_witness :
    (DeviceSettings.clientConfigured ⟨true, false, true, 0, .manual⟩ = true) ∧
      (((0 : ℚ) = 0 → false = false →
        sendScheduledMeasurement ⟨true, false, true, 0, .manual⟩
            (some ⟨0, 100, 1, 2, 50, 3, true, 7⟩) = none ∧
          handleReceivedMetricsAutoSend ⟨true, false, true, 0, .manual⟩
            ⟨0, 100, 1, 2, 50, 3, true, 7⟩ = none) ∧
      (false = true →
        sendScheduledMeasurement ⟨true, false, true, 0, .manual⟩
            (some ⟨0, 100, 1, 2, 50, 3, true, 7⟩)
          = some (buildOnbalansmarktMeasurement ⟨true, false, true, 0, .manual⟩
              ⟨0, 100, 1, 2, 50, 3, true, 7⟩) ∧
        (true = true →
          handleReceivedMetricsAutoSend ⟨true, false, true, 0, .manual⟩
              ⟨0, 100, 1, 2, 50, 3, true, 7⟩
            = sendScheduledMeasurement ⟨true, false, true, 0, .manual⟩
                (some ⟨0, 100, 1, 2, 50, 3, true, 7⟩)))) :=
  ⟨rfl, zero_result_filter_spec ⟨true, false, true, 0, .manual⟩
    ⟨0, 100, 1, 2, 50, 3, true, 7⟩ rfl⟩

/-- C4.  With a credential configured, every send transmits
`batteryResultTotal = totalEarned + offset`, while the record written to the
persistent store keeps `totalEarned` unchanged — the offset lives only at the
delivery boundary and is never merged into the stored measurement (every
other stored field is a verbatim copy too). -/
theorem total_earned_offset_applied_at_send_boundary
    (s : DeviceSettings) (m : ZonneplanMetrics) (hc : s.clientConfigured = true) :
    sendToOnbalansmarkt s m = some (buildOnbalansmarktMeasurement s m) ∧
      (buildOnbalansmarktMeasurement s m).batteryResultTotal
        = some (m.totalEarned + s.totalEarnedOffset) ∧
      (saveMetricsToStore m).totalEarned = m.totalEarned ∧
      saveMetricsToStore m
        = ⟨m.dailyEarned, m.totalEarned, m.dailyCharged, m.dailyDischarged,
           m.batteryPercentage, m.cycleCount, m.loadBalancingActive, m.timestamp⟩ := by
  refine ⟨?_, rfl, rfl, rfl⟩
  simp [sendToOnbalansmarkt, hc]

/-- Witness for C4 at the spec scenario: offset `+5.50` on
`totalEarned = 100.00`; the transmitted total is `100 + 11/2 = 105.50` and
the stored total stays `100`. -/
theorem total_earned_offset_applied_at_send_boundary_witness :
    (DeviceSettings.clientConfigured ⟨true, false, false, 11/2, .manual⟩ = true) ∧
      (sendToOnbalansmarkt ⟨true, false, false, 11/2, .manual⟩
          ⟨3, 100, 1, 2, 50, 4, false, 7⟩
        = some (buildOnbalansmarktMeasurement ⟨true, false, false, 11/2, .manual⟩
            ⟨3, 100, 1, 2, 50, 4, false, 7⟩) ∧
      (buildOnbalansmarktMeasurement ⟨true, false, false, 11/2, .manual⟩
          ⟨3, 100, 1, 2, 50, 4, false, 7⟩).batteryResultTotal
        = some ((100 : ℚ) + 11/2) ∧
      (saveMetricsToStore ⟨3, 100, 1, 2, 50, 4, false, 7⟩).totalEarned = (100 : ℚ) ∧
      saveMetricsToStore ⟨3, 100, 1, 2, 50, 4, false, 7⟩
        = ⟨3, 100, 1, 2, 50, 4, false, 7⟩) :=
  ⟨rfl, total_earned_offset_applied_at_send_boundary
    ⟨true, false, false, 11/2, .manual⟩ ⟨3, 100, 1, 2, 50, 4, false, 7⟩ rfl⟩

/-- C5 counterexample.  The claim that *every* field missing from the profile
response is reset to a zero default fails: with previously published
`reportedCharged = 5` and a fetched `resultToday` that carries ranks but no
`batteryCharged`, the republished `zonneplan_reported_charged` is still `5`
(the prior value), not `0`. -/
theorem fetchAndUpdateProfile_stale_reported_charged :
    (fetchAndUpdateProfile ⟨9, 9, 5, 7⟩ (some ⟨some 1, some 2, none, none⟩)).reportedCharged
        = 5 ∧
      (5 : ℚ) ≠ 0 ∧
      (fetchAndUpdateProfile ⟨9, 9, 5, 7⟩
          (some ⟨some 1, some 2, none, none⟩)).reportedCharged
        = ProfileCapabilities.reportedCharged ⟨9, 9, 5, 7⟩ := by
  refine ⟨rfl, by decide, rfl⟩

/-- C5 as amended.  On every successful poll the rank capabilities are
republished wholesale — `overallRank || 0`, `providerRank || 0`, and both
reset to `0` when `resultToday` is absent — but the reported charge and
discharge displays are republished only when the corresponding response
field is present; when it is absent (including when `resultToday` itself is
absent) they retain their previously published values. -/
theorem fetchAndUpdateProfile_rank_reset_reported_retained
    (caps : ProfileCapabilities) (r : DailyResult) :
    (fetchAndUpdateProfile caps (some r)).overallRank = r.overallRank.getD 0 ∧
      (fetchAndUpdateProfile caps (some r)).providerRank = r.providerRank.getD 0 ∧
      (fetchAndUpdateProfile caps (some r)).reportedCharged
        = r.batteryCharged.getD caps.reportedCharged ∧
      (fetchAndUpdateProfile caps (some r)).reportedDischarged
        = r.batteryDischarged.getD caps.reportedDischarged ∧
      fetchAndUpdateProfile caps none
        = { caps with overallRank := 0, providerRank := 0 } := by
  refine ⟨?_, ?_, ?_, ?_, rfl⟩ <;>
    cases hb : r.batteryCharged <;>
      cases hd : r.batteryDischarged <;>
        simp [fetchAndUpdateProfile, hb, hd, Option.getD]

/-- C6.  The manual "send live measurement now" flow card takes no input and
fails with an explicit error whenever no measurement has ever been received,
sending nothing; the scheduled send firing with an empty slot is a silent
no-op — its embedding is a total function into `Option` (nothing is thrown on
any path) and it makes no call. -/
theorem manual_send_errors_scheduled_send_silent (s : DeviceSettings) :
    sendLiveMeasurementFlowCard s none
        = .error "No metrics available. Please receive Zonneplan metrics first." ∧
      sendScheduledMeasurement s none = none := ⟨rfl, rfl⟩

/-- C10.  The settings-triggered `trigger_live_send` operation is a pure
simulation: in every outcome (no measurement, success, failure) it performs
no remote-client call and leaves the `trigger_live_send` setting switched
back to `false` before the handler returns or rethrows. -/
theorem trigger_live_send_pure_simulation (s : DeviceSettings)
    (last : Option ZonneplanMetrics) :
    (onSettingsTriggerLiveSend s last).clientCalls = [] ∧
      (onSettingsTriggerLiveSend s last).triggerLiveSendSetting = false := by
  cases last <;> simp [onSettingsTriggerLiveSend, simulateLiveMeasurement]

/-! ## Remote-client theorems -/

/-- Membership of a key among an optional payload entry's keys. -/
theorem mem_map_fst_optField (k key : String) (v : Option String) :
    k ∈ (optField key v).map Prod.fst ↔ k = key ∧ v.isSome = true := by
  cases v <;> simp [optField]

/-- C7.  `sendMeasurement` rejects (before any request) a measurement whose
`timestamp`, `batteryResult` or `batteryResultTotal` is null or undefined;
otherwise the string-valued wire payload contains the three required fields,
and each optional field appears among the payload keys exactly when it is
present — absent optional fields are omitted entirely, never sent as
placeholders. -/
theorem sendMeasurement_required_and_optional_fields
    (m : OnbalansmarktMeasurement) (ts : ℕ) (br brt : ℚ)
    (h1 : m.timestamp = some ts) (h2 : m.batteryResult = some br)
    (h3 : m.batteryResultTotal = some brt) :
    (sendMeasurementPayload { m with timestamp := none }
        = .error "timestamp, batteryResult and batteryResultTotal are required fields") ∧
    (sendMeasurementPayload { m with batteryResult := none }
        = .error "timestamp, batteryResult and batteryResultTotal are required fields") ∧
    (sendMeasurementPayload { m with batteryResultTotal := none }
        = .error "timestamp, batteryResult and batteryResultTotal are required fields") ∧
    (sendMeasurementPayload m).isOk = true ∧
    "timestamp" ∈ payloadKeys m ∧
    "batteryResult" ∈ payloadKeys m ∧
    "batteryResultTotal" ∈ payloadKeys m ∧
    ("batteryCharge" ∈ payloadKeys m ↔ m.batteryCharge.isSome = true) ∧
    ("batteryPower" ∈ payloadKeys m ↔ m.batteryPower.isSome = true) ∧
    ("chargedToday" ∈ payloadKeys m ↔ m.chargedToday.isSome = true) ∧
    ("dischargedToday" ∈ payloadKeys m ↔ m.dischargedToday.isSome = true) ∧
    ("loadBalancingActive" ∈ payloadKeys m ↔ m.loadBalancingActive.isSome = true) ∧
    ("solarResult" ∈ payloadKeys m ↔ m.solarResult.isSome = true) ∧
    ("chargerResult" ∈ payloadKeys m ↔ m.chargerResult.isSome = true) ∧
    ("batteryResultEpex" ∈ payloadKeys m ↔ m.batteryResultEpex.isSome = true) ∧
    ("batteryResultImbalance" ∈ payloadKeys m ↔ m.batteryResultImbalance.isSome = true) ∧
    ("batteryResultCustom" ∈ payloadKeys m ↔ m.batteryResultCustom.isSome = true) ∧
    ("batteryResultAccounting" ∈ payloadKeys m ↔ m.batteryResultAccounting.isSome = true) ∧
    ("totalBatteryCycles" ∈ payloadKeys m ↔ m.totalBatteryCycles.isSome = true) ∧
    ("mode" ∈ payloadKeys m ↔ m.mode.isSome = true) := by
  refine ⟨?_, ?_, ?_, ?_⟩
  · cases hb : m.batteryResult <;> cases hc : m.batteryResultTotal <;>
      simp [sendMeasurementPayload]
  · cases ha : m.timestamp <;> cases hc : m.batteryResultTotal <;>
      simp [sendMeasurementPayload]
  · cases ha : m.timestamp <;> cases hb : m.batteryResult <;>
      simp [sendMeasurementPayload]
  · simp only [payloadKeys, sendMeasurementPayload, h1, h2, h3]
    simp only [List.map_append, List.mem_append, mem_map_fst_optField, Option.isSome_map]
    refine ⟨rfl, ?_⟩
    simp

/-- Witness for C7: a measurement with the three required fields and one
optional field (`batteryCharge`) present; the others stay absent. -/
theorem sendMeasurement_required_and_optional_fields_witness :
    (OnbalansmarktMeasurement.timestamp
        { timestamp := some 7, batteryResult := some 1, batteryResultTotal := some 2,
          batteryCharge := some 50 } = some 7) ∧
      (OnbalansmarktMeasurement.batteryResult
        { timestamp := some 7, batteryResult := some 1, batteryResultTotal := some 2,
          batteryCharge := some 50 } = some 1) ∧
      (OnbalansmarktMeasurement.batteryResultTotal
        { timestamp := some 7, batteryResult := some 1, batteryResultTotal := some 2,
          batteryCharge := some 50 } = some 2) ∧
      (sendMeasurementPayload
        { timestamp := some 7, batteryResult := some 1, batteryResultTotal := some 2,
          batteryCharge := some 50 }).isOk = true ∧
      ("batteryCharge" ∈ payloadKeys
          { timestamp := some 7, batteryResult := some 1, batteryResultTotal := some 2,
            batteryCharge := some 50 }
        ↔ (some (50 : ℚ)).isSome = true) ∧
      ("batteryPower" ∈ payloadKeys
          { timestamp := some 7, batteryResult := some 1, batteryResultTotal := some 2,
            batteryCharge := some 50 }
        ↔ (none : Option ℚ).isSome = true) := by
  have h := sendMeasurement_required_and_optional_fields
    { timestamp := some 7, batteryResult := some 1, batteryResultTotal := some 2,
      batteryCharge := some 50 } 7 1 2 rfl rfl rfl
  exact ⟨rfl, rfl, rfl, h.2.2.2.1, h.2.2.2.2.2.2.2.1, h.2.2.2.2.2.2.2.2.1⟩

/-- String append is associative (used to reshape the error messages). -/
theorem str_append_assoc (a b c : String) : a ++ b ++ c = a ++ (b ++ c) := by
  cases a
  cases b
  cases c
  exact congrArg String.mk (List.append_assoc _ _ _)

/-- A list is a Boolean prefix of itself followed by anything. -/
theorem isPrefixOf_append_self (l t : List Char) : l.isPrefixOf (l ++ t) = true := by
  induction l with
  | nil => simp [List.isPrefixOf]
  | cons a l ih => simp [List.isPrefixOf, ih]

/-- `String#includes` finds a substring wherever it occurs after a prefix. -/
theorem jsStrIncludes_of_append (a x b : String) : jsStrIncludes (a ++ (x ++ b)) x = true := by
  have hdata : (a ++ (x ++ b)).toList = a.toList ++ (x.toList ++ b.toList) := by
    cases a
    cases x
    cases b
    rfl
  unfold jsStrIncludes
  apply List.any_eq_true.mpr
  refine ⟨a.toList.length, ?_, ?_⟩
  · rw [List.mem_range, hdata]
    simp
    omega
  · rw [hdata, List.drop_left]
    exact isPrefixOf_append_self _ _

/-- C8.  For every non-2xx response, `sendMeasurement` raises an error whose
message includes the HTTP status; with an HTML content type the message
carries the invalid-API-key hint, with a JSON content type and a decodable
body the decoded error is included instead, and the two messages are
distinct (shown at the spec scenario: 401 HTML versus 400 JSON). -/
theorem sendMeasurement_error_message_spec
    (status : ℕ) (stTxt ct rt : String) (je : Option String) (e : String)
    (h : ¬ (200 ≤ status ∧ status ≤ 299)) :
    sendMeasurementResponse status stTxt ct je rt
        = .error (sendMeasurementErrorMessage status stTxt ct je) ∧
      jsStrIncludes (sendMeasurementErrorMessage status stTxt ct je) (toString status) = true ∧
      (jsStrIncludes ct "application/json" = false → jsStrIncludes ct "text/html" = true →
        sendMeasurementErrorMessage status stTxt ct je
          = "Failed to send measurement: " ++ ("API returned " ++
              ("HTTP " ++ toString status ++ " " ++ stTxt ++
                " (HTML response - API may be down or invalid API key)"))) ∧
      (jsStrIncludes ct "application/json" = true →
        sendMeasurementErrorMessage status stTxt ct (some e)
          = "Failed to send measurement: " ++ ("API returned " ++
              ("HTTP " ++ toString status ++ " " ++ stTxt ++ ": " ++ e))) ∧
      sendMeasurementErrorMessage 401 "Unauthorized" "text/html" none
        ≠ sendMeasurementErrorMessage 400 "Bad Request" "application/json"
            (some "Invalid API key") := by
  have key : ∀ tail : String,
      jsStrIncludes ("Failed to send measurement: " ++ ("API returned " ++
          ("HTTP " ++ (toString status ++ tail)))) (toString status) = true := by
    intro tail
    have hp := jsStrIncludes_of_append
      ("Failed to send measurement: " ++ ("API returned " ++ "HTTP "))
      (toString status) tail
    rw [show ("Failed to send measurement: " ++ ("API returned " ++ "HTTP "))
          ++ (toString status ++ tail)
        = "Failed to send measurement: " ++ ("API returned " ++
            ("HTTP " ++ (toString status ++ tail))) by simp only [str_append_assoc]] at hp
    exact hp
  refine ⟨?_, ?_, ?_, ?_, ?_⟩
  · simp [sendMeasurementResponse, h]
  · unfold sendMeasurementErrorMessage buildHttpErrorDetails
    by_cases hj : jsStrIncludes ct "application/json" = true
    · simp only [hj, if_true]
      cases je with
      | none =>
        have := key (" " ++ stTxt)
        simp only [str_append_assoc] at this ⊢
        exact this
      | some e2 =>
        have := key (" " ++ (stTxt ++ (": " ++ e2)))
        simp only [str_append_assoc] at this ⊢
        exact this
    · simp only [Bool.not_eq_true] at hj
      simp only [hj, Bool.false_eq_true, if_false]
      by_cases hh : jsStrIncludes ct "text/html" = true
      · simp only [hh, if_true]
        have := key (" " ++ (stTxt ++ " (HTML response - API may be down or invalid API key)"))
        simp only [str_append_assoc] at this ⊢
        exact this
      · simp only [Bool.not_eq_true] at hh
        simp only [hh, Bool.false_eq_true, if_false]
        have := key (" " ++ stTxt)
        simp only [str_append_assoc] at this ⊢
        exact this
  · intro hj hh
    simp only [sendMeasurementErrorMessage, buildHttpErrorDetails, hj, hh,
      Bool.false_eq_true, if_false, if_true, str_append_assoc]
  · intro hj
    simp only [sendMeasurementErrorMessage, buildHttpErrorDetails, hj, if_true,
      str_append_assoc]
  · decide

/-- Witness for C8 at the spec scenario: HTTP 401, HTML body, no JSON error. -/
theorem sendMeasurement_error_message_spec_witness :
    (¬ (200 ≤ 401 ∧ 401 ≤ 299)) ∧
      (sendMeasurementResponse 401 "Unauthorized" "text/html" none "unused"
          = .error (sendMeasurementErrorMessage 401 "Unauthorized" "text/html" none) ∧
        jsStrIncludes (sendMeasurementErrorMessage 401 "Unauthorized" "text/html" none)
            (toString 401) = true ∧
        (jsStrIncludes "text/html" "application/json" = false →
          jsStrIncludes "text/html" "text/html" = true →
          sendMeasurementErrorMessage 401 "Unauthorized" "text/html" none
            = "Failed to send measurement: " ++ ("API returned " ++
                ("HTTP " ++ toString 401 ++ " " ++ "Unauthorized" ++
                  " (HTML response - API may be down or invalid API key)"))) ∧
        (jsStrIncludes "text/html" "application/json" = true →
          sendMeasurementErrorMessage 401 "Unauthorized" "text/html" (some "body")
            = "Failed to send measurement: " ++ ("API returned " ++
                ("HTTP " ++ toString 401 ++ " " ++ "Unauthorized" ++ ": " ++ "body"))) ∧
        sendMeasurementErrorMessage 401 "Unauthorized" "text/html" none
          ≠ sendMeasurementErrorMessage 400 "Bad Request" "application/json"
              (some "Invalid API key")) :=
  ⟨by decide,
   sendMeasurement_error_message_spec 401 "Unauthorized" "text/html" "unused" none "body"
     (by decide)⟩
